import Mathlib

set_option maxHeartbeats 1000000
set_option linter.unusedVariables false

namespace Amrutam

/-- Slot lifecycle states, from the shared SlotStatus enum. -/
inductive SlotStatus where
  | AVAILABLE
  | BOOKED
  | LOCKED
  | UNAVAILABLE
  deriving DecidableEq, Repr

/-- Appointment lifecycle states, from the shared AppointmentStatus enum. -/
inductive AppointmentStatus where
  | PENDING
  | CONFIRMED
  | COMPLETED
  | CANCELLED
  | RESCHEDULED
  deriving DecidableEq, Repr

/-- Consultation modes, from the shared ConsultationMode enum. -/
inductive ConsultationMode where
  | ONLINE
  | IN_PERSON
  deriving DecidableEq, Repr

/-- User roles, from the shared UserRole enum. -/
inductive Role where
  | PATIENT
  | DOCTOR
  | ADMIN
  deriving DecidableEq, Repr

/-- A row of the time_slots table. The date field is the timestamp (in seconds)
of midnight of the calendar day, exactly what Prisma hands to the handlers;
startTime and endTime are minutes after midnight, the parsed form of the
HH:MM strings that the handlers split on the colon. -/
structure TimeSlot where
  id : Nat
  doctorId : Nat
  date : Int
  startTime : Nat
  endTime : Nat
  status : SlotStatus
  appointmentId : Option Nat
  lockedUntil : Option Int
  deriving DecidableEq, Repr

/-- A row of the slot_locks table, as created by POST /slots/:slotId/lock. -/
structure SlotLock where
  id : Nat
  slotId : Nat
  patientId : Nat
  lockedUntil : Int
  otp : String
  otpExpiresAt : Int
  deriving DecidableEq, Repr

/-- A row of the appointments table. -/
structure Appointment where
  id : Nat
  patientId : Nat
  doctorId : Nat
  slotId : Nat
  status : AppointmentStatus
  consultationMode : ConsultationMode
  symptoms : String
  notes : String
  prescription : Option String
  followUpDate : Option Int
  cancelledAt : Option Int
  cancelledBy : Option Nat
  cancellationReason : Option String
  deriving DecidableEq, Repr

/-- The persistent store touched by the booking routes: the three tables,
plus a counter supplying fresh row ids. -/
structure DB where
  slots : List TimeSlot
  locks : List SlotLock
  appointments : List Appointment
  nextId : Nat
  deriving DecidableEq, Repr

/-- prisma.timeSlot.findUnique on the slot id. -/
def findSlot (db : DB) (i : Nat) : Option TimeSlot :=
  db.slots.find? (fun t => t.id == i)

/-- prisma.appointment.findUnique on the appointment id. -/
def findAppt (db : DB) (i : Nat) : Option Appointment :=
  db.appointments.find? (fun a => a.id == i)

/-- All slot_locks rows referencing a given slot. -/
def locksFor (db : DB) (sid : Nat) : List SlotLock :=
  db.locks.filter (fun l => l.slotId == sid)

/-- All appointments rows referencing a given slot. -/
def apptsFor (db : DB) (sid : Nat) : List Appointment :=
  db.appointments.filter (fun a => a.slotId == sid)

/-- The instant a slot begins: new Date(slot.date) followed by
setHours(hours, minutes, 0, 0) on the parsed startTime. -/
def slotStart (s : TimeSlot) : Int :=
  s.date + (s.startTime : Int) * 60

/-- prisma.timeSlot.update keyed on the slot id (no status guard in the WHERE
clause, exactly as in the source). -/
def updateSlots (db : DB) (k : Nat) (f : TimeSlot → TimeSlot) : DB :=
  { db with slots := db.slots.map (fun t => if t.id == k then f t else t) }

/-- The shared helper canCancelOrReschedule: the millisecond difference between
the passed date and now, divided into hours, must exceed 24.  The caller hands
it appointment.slot.date — the midnight timestamp of the slot's calendar day,
not the slot's start instant.  In seconds: the difference must exceed 86400. -/
def canCancelOrReschedule (now appointmentDate : Int) : Bool :=
  decide (86400 < appointmentDate - now)

/-- Outcomes of the validation phase of POST /slots/:slotId/lock:
404 Slot not found, 400 Slot is not available, 400 Cannot book past slots. -/
inductive ReserveErr where
  | notFound
  | notAvailable
  | pastSlot
  deriving DecidableEq, Repr

/-- Outcome of POST /slots/:slotId/lock.  serverError is the catch block's
HTTP 500 Failed to lock slot, answered when prisma.slotLock.create throws —
in particular when the row violates the unique index slot_locks_slotId_key of
the initial migration (P2002). -/
inductive ReserveResult where
  | ok (slotLockId : Nat) (otp : String) (expiresAt : Int)
  | err (e : ReserveErr)
  | serverError
  deriving DecidableEq, Repr

/-- The read phase of POST /api/appointments/slots/:slotId/lock: findUnique on
the slot, reject when missing, when status is not AVAILABLE, or when the slot
start instant is not in the future. -/
def reserveCheck (db : DB) (now : Int) (slotId : Nat) : Option ReserveErr :=
  match findSlot db slotId with
  | none => some .notFound
  | some s =>
    if s.status ≠ .AVAILABLE then some .notAvailable
    else if slotStart s ≤ now then some .pastSlot
    else none

/-- The write phase of POST /api/appointments/slots/:slotId/lock:
timeSlot.update to LOCKED with lockedUntil = now + 5 minutes, then
slotLock.create carrying the generated OTP, also expiring at now + 5 minutes.
The slot_locks table has the unique index slot_locks_slotId_key (initial
migration, bundled in start.sh), so when a SlotLock row for this slot already
exists the create throws P2002 and the catch block answers 500 — with the
slot update already committed and no compensating write. -/
def reserveWrite (db : DB) (now : Int) (slotId patientId : Nat) (otp : String) :
    DB × ReserveResult :=
  let expires : Int := now + 300
  let db1 := updateSlots db slotId
    (fun t => { t with status := .LOCKED, lockedUntil := some expires })
  if db.locks.any (fun l => l.slotId == slotId) then (db1, .serverError)
  else
    let lock : SlotLock :=
      { id := db1.nextId, slotId := slotId, patientId := patientId,
        lockedUntil := expires, otp := otp, otpExpiresAt := expires }
    ({ db1 with locks := db1.locks ++ [lock], nextId := db1.nextId + 1 },
     .ok lock.id otp expires)

/-- POST /api/appointments/slots/:slotId/lock run in isolation (the read phase
immediately followed by the write phase).  The request body's consultationMode,
symptoms and notes are validated and accepted by the handler but never stored
anywhere; the OTP, produced by generateOTP at run time, is a parameter here. -/
def lockSlot (db : DB) (now : Int) (slotId patientId : Nat) (otp : String)
    (mode : ConsultationMode) (symptoms notes : String) : DB × ReserveResult :=
  match reserveCheck db now slotId with
  | some e => (db, .err e)
  | none => reserveWrite db now slotId patientId otp

/-- The interleaving of two concurrent lock requests on the same slot in which
both handlers complete their findUnique-and-validate read phase before either
write phase commits.  Each await in the handler is a separate trip to the
store, and no WHERE clause guards the update on the prior status, so this
schedule is admitted by the source; each request samples its own Date.now()
(now1 and now2). -/
def reserveRaced (db : DB) (now1 now2 : Int) (slotId p1 p2 : Nat)
    (otp1 otp2 : String) : ReserveResult × ReserveResult × DB :=
  let c1 := reserveCheck db now1 slotId
  let c2 := reserveCheck db now2 slotId
  let step1 : DB × ReserveResult :=
    match c1 with
    | some e => (db, .err e)
    | none => reserveWrite db now1 slotId p1 otp1
  let step2 : DB × ReserveResult :=
    match c2 with
    | some e => (step1.1, .err e)
    | none => reserveWrite step1.1 now2 slotId p2 otp2
  (step1.2, step2.2, step2.1)

/-- The execution of POST /slots/:slotId/lock in which prisma.slotLock.create
throws after prisma.timeSlot.update already committed: the catch block answers
HTTP 500 and performs no compensating write, so only the slot update survives. -/
def lockSlotPersistFails (db : DB) (now : Int) (slotId : Nat) : DB :=
  match reserveCheck db now slotId with
  | some _ => db
  | none => updateSlots db slotId
      (fun t => { t with status := .LOCKED, lockedUntil := some (now + 300) })

/-- Outcome of POST /slots/:slotId/confirm.  The handler answers one combined
400 message, Invalid OTP or slot lock expired, for a missing lock, a lock held
by another patient, a wrong passcode, and a lapsed expiry alike; a further 400,
Slot is no longer locked, covers a slot no longer in LOCKED status.
serverError is the catch block's HTTP 500 Failed to confirm appointment,
answered when prisma.appointment.create throws — in particular when the new
row violates the unique index appointments_slotId_key of the initial
migration (P2002). -/
inductive ConfirmResult where
  | ok (appointmentId : Nat)
  | invalidOtpOrExpired
  | slotNotLocked
  | missingSlot
  | serverError
  deriving DecidableEq, Repr

/-- prisma.slotLock.findFirst where slotId, patientId and otp match and
otpExpiresAt is strictly in the future. -/
def findLock (db : DB) (now : Int) (slotId patientId : Nat) (otp : String) :
    Option SlotLock :=
  db.locks.find? (fun l =>
    l.slotId == slotId && l.patientId == patientId && l.otp == otp &&
      decide (now < l.otpExpiresAt))

/-- POST /api/appointments/slots/:slotId/confirm: look up the matching
unexpired lock, require the slot to still be LOCKED, create the appointment
(status CONFIRMED, consultationMode ONLINE, empty symptoms and notes), set the
slot to BOOKED pointing at the appointment, delete the slot lock.  The
appointments table has the unique index appointments_slotId_key (initial
migration, bundled in start.sh): when any appointment row — a cancelled one
included — still carries this slotId, the create throws P2002 as the first
write of the block and the catch answers 500 with no state change. -/
def confirmSlot (db : DB) (now : Int) (slotId patientId : Nat) (otp : String) :
    DB × ConfirmResult :=
  match findLock db now slotId patientId otp with
  | none => (db, .invalidOtpOrExpired)
  | some l =>
    match findSlot db l.slotId with
    | none => (db, .missingSlot)
    | some s =>
      if s.status ≠ .LOCKED then (db, .slotNotLocked)
      else if db.appointments.any (fun a => a.slotId == slotId) then
        (db, .serverError)
      else
        let appt : Appointment :=
          { id := db.nextId, patientId := patientId, doctorId := s.doctorId,
            slotId := slotId, status := .CONFIRMED, consultationMode := .ONLINE,
            symptoms := "", notes := "", prescription := none,
            followUpDate := none, cancelledAt := none, cancelledBy := none,
            cancellationReason := none }
        let db1 := { db with
          appointments := db.appointments ++ [appt]
          nextId := db.nextId + 1 }
        let db2 := updateSlots db1 slotId
          (fun t => { t with status := .BOOKED, appointmentId := some appt.id })
        let db3 := { db2 with locks := db2.locks.filter (fun l2 => l2.id != l.id) }
        (db3, .ok appt.id)

/-- Outcome of POST /api/appointments/:id/cancel. -/
inductive CancelResult where
  | ok
  | notFound
  | forbidden
  | tooLate
  | missingSlot
  deriving DecidableEq, Repr

/-- POST /api/appointments/:id/cancel: permission check, then the shared 24
hour helper applied to the slot's date field, then an unguarded update of the
appointment to CANCELLED and an unguarded update of the slot to AVAILABLE. -/
def cancelAppointment (db : DB) (now : Int) (apptId userId : Nat) (role : Role)
    (reason : String) : DB × CancelResult :=
  match findAppt db apptId with
  | none => (db, .notFound)
  | some a =>
    if role ≠ .ADMIN ∧ a.patientId ≠ userId ∧ a.doctorId ≠ userId then
      (db, .forbidden)
    else
      match findSlot db a.slotId with
      | none => (db, .missingSlot)
      | some s =>
        if canCancelOrReschedule now s.date then
          let newAppts := db.appointments.map (fun a2 =>
            if a2.id == apptId then
              { a2 with
                status := .CANCELLED
                cancelledAt := some now
                cancelledBy := some userId
                cancellationReason := some reason }
            else a2)
          let db1 := { db with appointments := newAppts }
          let db2 := updateSlots db1 a.slotId
            (fun t => { t with status := .AVAILABLE, appointmentId := none })
          (db2, .ok)
        else (db, .tooLate)

/-- Outcome of POST /api/appointments/:id/complete. -/
inductive CompleteResult where
  | ok
  | notFound
  | forbidden
  deriving DecidableEq, Repr

/-- POST /api/appointments/:id/complete: the acting doctor must own the
appointment; its status becomes COMPLETED; the slot is untouched. -/
def completeAppointment (db : DB) (apptId doctorId : Nat)
    (prescription : Option String) (followUpDate : Option Int) :
    DB × CompleteResult :=
  match findAppt db apptId with
  | none => (db, .notFound)
  | some a =>
    if a.doctorId ≠ doctorId then (db, .forbidden)
    else
      let newAppts := db.appointments.map (fun a2 =>
        if a2.id == apptId then
          { a2 with
            status := .COMPLETED
            prescription := prescription
            followUpDate := followUpDate }
        else a2)
      ({ db with appointments := newAppts }, .ok)

/-- The slot-mutating operations of the appointments router, as one alphabet
for statements quantifying over operation sequences. -/
inductive CoreOp where
  | lockOp (slotId patientId : Nat) (otp : String) (mode : ConsultationMode)
      (symptoms notes : String)
  | confirmOp (slotId patientId : Nat) (otp : String)
  | cancelOp (apptId userId : Nat) (role : Role) (reason : String)
  | completeOp (apptId doctorId : Nat) (prescription : Option String)
      (followUpDate : Option Int)
  deriving Repr

/-- State reached after one operation of the appointments router. -/
def applyOp (db : DB) (now : Int) : CoreOp → DB
  | .lockOp s p otp m sy nt => (lockSlot db now s p otp m sy nt).1
  | .confirmOp s p otp => (confirmSlot db now s p otp).1
  | .cancelOp a u r rs => (cancelAppointment db now a u r rs).1
  | .completeOp a d pr f => (completeAppointment db a d pr f).1

/-- The slot-status edges each operation may traverse, one disjunct per
operation kind, used to state the transition discipline the router actually
enforces. -/
def allowedEdge : CoreOp → SlotStatus → SlotStatus → Prop
  | .lockOp _ _ _ _ _ _, st, st2 => st = .AVAILABLE ∧ st2 = .LOCKED
  | .confirmOp _ _ _, st, st2 => st = .LOCKED ∧ st2 = .BOOKED
  | .cancelOp _ _ _ _, _, st2 => st2 = .AVAILABLE
  | .completeOp _ _ _ _, _, _ => False

/-- Modelled from the spec: the Expiry Sweeper of section 4.5 is absent from
the backend source (no background job or interval timer exists anywhere in
src).  One reclamation step for one snapshot entry of the slot_locks table:
when its expiry timestamp is in the past, attempt the conditional transition
LOCKED to AVAILABLE on the linked slot, clearing the lock expiry, and only
after that succeeds delete the SlotLock row; on a conflict (slot not LOCKED)
or a missing slot, move on without error. -/
def sweepStep (now : Int) (db : DB) (l : SlotLock) : DB :=
  if l.otpExpiresAt < now then
    match findSlot db l.slotId with
    | some s =>
      if s.status = .LOCKED then
        let db1 := updateSlots db l.slotId
          (fun t => { t with status := .AVAILABLE, lockedUntil := none })
        { db1 with locks := db1.locks.filter (fun l2 => l2.id != l.id) }
      else db
    | none => db
  else db

/-- Modelled from the spec: one full run of the Expiry Sweeper over a snapshot
of the slot_locks table. -/
def sweep (db : DB) (now : Int) : DB :=
  db.locks.foldl (sweepStep now) db

/-- A recurring_availability_rules row from the Prisma migration; times are
minutes after midnight, dates are day numbers. -/
structure RecurringRule where
  id : Nat
  doctorId : Nat
  dayOfWeek : Nat
  startTime : Nat
  endTime : Nat
  isActive : Bool
  startDate : Nat
  endDate : Option Nat
  deriving DecidableEq, Repr

/-- Midnight timestamp, in seconds, of a day number. -/
def dayDate (d : Nat) : Int :=
  86400 * (d : Int)

/-- Whether a slot with the given natural key (doctor, date, startTime,
endTime) already exists. -/
def hasKey (db : DB) (doctorId d st et : Nat) : Bool :=
  db.slots.any (fun s =>
    s.doctorId == doctorId && s.date == dayDate d && s.startTime == st &&
      s.endTime == et)

/-- Modelled from the spec: insert one candidate slot with duplicate skipping
on the natural key (doctor, date, startTime, endTime), section 4.4. -/
def insertCandidate (rule : RecurringRule) (db : DB) (d : Nat) : DB :=
  if hasKey db rule.doctorId d rule.startTime rule.endTime then db
  else
    let s : TimeSlot :=
      { id := db.nextId, doctorId := rule.doctorId, date := dayDate d,
        startTime := rule.startTime, endTime := rule.endTime,
        status := .AVAILABLE, appointmentId := none, lockedUntil := none }
    { db with
      slots := db.slots ++ [s]
      nextId := db.nextId + 1 }

/-- The candidate day numbers of one expansion run: each calendar day between
max(rule.startDate, today) and min(rule.endDate or horizonEnd, horizonEnd)
whose day of week matches the rule. -/
def candidateDays (rule : RecurringRule) (today horizonEnd : Nat) : List Nat :=
  (List.range (horizonEnd + 1)).filter (fun d =>
    decide (max rule.startDate today ≤ d) &&
      decide (d ≤ min (rule.endDate.getD horizonEnd) horizonEnd) &&
      d % 7 == rule.dayOfWeek)

/-- Modelled from the spec: Expand(rule, horizonEnd) of section 4.4 is absent
from the backend source (only the recurring_availability_rules table of the
migration and a frontend caller of /recurring-rules exist); each matching
candidate date is inserted with duplicate skipping on the natural key. -/
def expandRule (db : DB) (rule : RecurringRule) (today horizonEnd : Nat) : DB :=
  (candidateDays rule today horizonEnd).foldl (insertCandidate rule) db

/-- Fixture: one AVAILABLE slot for doctor 2, calendar day at timestamp
1000000 with a 10:00 start, so its start instant is 1036000. -/
def slotA : TimeSlot :=
  { id := 1, doctorId := 2, date := 1000000, startTime := 600, endTime := 630,
    status := .AVAILABLE, appointmentId := none, lockedUntil := none }

/-- Fixture: a store holding just slotA. -/
def availDB : DB :=
  { slots := [slotA], locks := [], appointments := [], nextId := 10 }

/-- Fixture: slotA in LOCKED status with an expired lock window. -/
def slotL : TimeSlot :=
  { slotA with status := .LOCKED, lockedUntil := some 50 }

/-- Fixture: a slot lock on slotA held by patient 3 that expired at time 50. -/
def expiredLock : SlotLock :=
  { id := 20, slotId := 1, patientId := 3, lockedUntil := 50, otp := "111111",
    otpExpiresAt := 50 }

/-- Fixture: locked slot plus an expired lock row (nothing swept yet). -/
def expiredLockDB : DB :=
  { slots := [slotL], locks := [expiredLock], appointments := [], nextId := 30 }

/-- Fixture: locked slot plus a still-valid lock row expiring at time 400. -/
def validLockDB : DB :=
  { slots := [{ slotA with status := .LOCKED, lockedUntil := some 400 }],
    locks := [{ expiredLock with lockedUntil := 400, otpExpiresAt := 400 }],
    appointments := [], nextId := 30 }

/-- Fixture: a BOOKED slot whose calendar-day timestamp is 39601 and whose
start time is 13:00, so the start instant is 86401 (24 hours and one second
when measured from time zero). -/
def c5Slot : TimeSlot :=
  { id := 1, doctorId := 2, date := 39601, startTime := 780, endTime := 810,
    status := .BOOKED, appointmentId := some 7, lockedUntil := none }

/-- Fixture: the CONFIRMED appointment of patient 3 occupying c5Slot. -/
def c5Appt : Appointment :=
  { id := 7, patientId := 3, doctorId := 2, slotId := 1, status := .CONFIRMED,
    consultationMode := .ONLINE, symptoms := "", notes := "",
    prescription := none, followUpDate := none, cancelledAt := none,
    cancelledBy := none, cancellationReason := none }

/-- Fixture: booked slot and its confirmed appointment. -/
def c5DB : DB :=
  { slots := [c5Slot], locks := [], appointments := [c5Appt], nextId := 8 }

/-- Fixture: a LOCKED slot whose start instant (time 0) is already past. -/
def c9DB : DB :=
  { slots := [{ slotA with date := 0, startTime := 0, status := .LOCKED }],
    locks := [], appointments := [], nextId := 10 }

/-- Fixture: an AVAILABLE slot whose start instant (time 0) is already past. -/
def c9PastAvailDB : DB :=
  { slots := [{ slotA with date := 0, startTime := 0 }],
    locks := [], appointments := [], nextId := 10 }

/-- Fixture: the store after patient 3 locks slotA at time 0 and confirms with
the matching passcode at time 10. -/
def c2DB2 : DB :=
  (confirmSlot (lockSlot availDB 0 1 3 "111111" ConsultationMode.ONLINE "" "").1
    10 1 3 "111111").1

/-- Fixture: lock, confirm, cancel, then a second patient locks the freed
slot: the appointment of the first patient is CANCELLED while the slot is
LOCKED again on behalf of patient 4. -/
def c3DB4 : DB :=
  applyOp
    (applyOp
      (applyOp
        (applyOp availDB 100 (CoreOp.lockOp 1 3 "111111" .ONLINE "" ""))
        110 (CoreOp.confirmOp 1 3 "111111"))
      120 (CoreOp.cancelOp 11 3 .PATIENT "r"))
    130 (CoreOp.lockOp 1 4 "222222" .ONLINE "" "")

/-- Fixture: a weekly rule of doctor 2 for day-of-week 0, 09:00 to 09:30. -/
def ruleA : RecurringRule :=
  { id := 1, doctorId := 2, dayOfWeek := 0, startTime := 540, endTime := 570,
    isActive := true, startDate := 0, endDate := none }

/-- Fixture: the reachable book-then-cancel-then-relock state — slot 1 is
LOCKED again with a live lock for patient 3, while the cancelled appointment
row for slot 1 still occupies the unique appointments_slotId_key index. -/
def relockedDB : DB :=
  { slots := [{ slotA with status := .LOCKED, lockedUntil := some 400 }],
    locks := [{ expiredLock with lockedUntil := 400, otpExpiresAt := 400 }],
    appointments := [{ c5Appt with status := .CANCELLED }],
    nextId := 30 }

/-- Looking an element up by id after an id-preserving conditional update of
one id commutes with the update of the found element. -/
theorem find?_map_of_key {α : Type} (key : α → Nat) (f : α → α)
    (hf : ∀ a, key (f a) = key a) (l : List α) (k i : Nat) :
    (l.map (fun a => if key a == k then f a else a)).find? (fun a => key a == i)
      = (l.find? (fun a => key a == i)).map
          (fun a => if key a == k then f a else a) := by
  rw [List.find?_map]
  have hcomp : ((fun a => key a == i) ∘ fun a => if key a == k then f a else a)
      = fun a => key a == i := by
    funext a
    by_cases h : (key a == k) = true <;> simp [Function.comp, h, hf]
  rw [hcomp]

/-- Looking a slot up after an id-preserving conditional update. -/
theorem findSlot_updateSlots (db : DB) (k i : Nat) (f : TimeSlot → TimeSlot)
    (hf : ∀ t, (f t).id = t.id) :
    findSlot (updateSlots db k f) i
      = (findSlot db i).map (fun t => if t.id == k then f t else t) := by
  simp only [findSlot, updateSlots]
  exact find?_map_of_key TimeSlot.id f hf db.slots k i

/-- find? skips a prefix in which nothing matches. -/
theorem find?_append_of_none {α : Type} {p : α → Bool} {l1 l2 : List α}
    (h : l1.find? p = none) : (l1 ++ l2).find? p = l2.find? p := by
  rw [List.find?_append, h, Option.none_or]

/-- find? lands on the unique matching element. -/
theorem find?_eq_some_of_unique {α : Type} {p : α → Bool} :
    ∀ (l : List α) (a : α), a ∈ l → p a = true →
      (∀ x ∈ l, p x = true → x = a) → l.find? p = some a := by
  intro l
  induction l with
  | nil => intro a ha; cases ha
  | cons x xs ih =>
    intro a ha hpa huniq
    by_cases hx : p x = true
    · rw [List.find?_cons_of_pos _ hx, huniq x (List.mem_cons_self x xs) hx]
    · rw [List.find?_cons_of_neg _ hx]
      rcases List.mem_cons.mp ha with h | h
      · exact absurd (h ▸ hpa) hx
      · exact ih a h hpa (fun x2 hx2 => huniq x2 (List.mem_cons_of_mem _ hx2))

/-- A passing validation phase of the lock handler pins the slot down: it
exists, is AVAILABLE, and starts in the future. -/
theorem reserveCheck_eq_none {db : DB} {now : Int} {slotId : Nat}
    (h : reserveCheck db now slotId = none) :
    ∃ s, findSlot db slotId = some s ∧ s.status = .AVAILABLE ∧
      now < slotStart s := by
  unfold reserveCheck at h
  cases hs : findSlot db slotId with
  | none => rw [hs] at h; cases h
  | some s =>
    rw [hs] at h
    by_cases h1 : s.status = SlotStatus.AVAILABLE
    · by_cases h2 : slotStart s ≤ now
      · simp [h1, h2] at h
      · exact ⟨s, rfl, h1, by omega⟩
    · simp [h1] at h

/-- The full effect of a successful lock call, as one equation; success
requires no existing slot_locks row for the slot, or the create would hit
the unique index. -/
theorem lockSlot_success {db : DB} {now : Int} {slotId pid : Nat} {otp : String}
    {m : ConsultationMode} {sy nt : String} {s : TimeSlot}
    (hs : findSlot db slotId = some s) (hA : s.status = .AVAILABLE)
    (hF : now < slotStart s) (hnoL : ∀ x ∈ db.locks, x.slotId ≠ slotId) :
    lockSlot db now slotId pid otp m sy nt =
      (DB.mk
        (db.slots.map (fun t =>
          if t.id == slotId then
            { t with status := .LOCKED, lockedUntil := some (now + 300) }
          else t))
        (db.locks ++ [SlotLock.mk db.nextId slotId pid (now + 300) otp (now + 300)])
        db.appointments
        (db.nextId + 1),
       .ok db.nextId otp (now + 300)) := by
  have hc : reserveCheck db now slotId = none := by
    unfold reserveCheck
    rw [hs]
    simp [hA, not_le.mpr hF]
  have hg : db.locks.any (fun l => l.slotId == slotId) = false := by
    rw [List.any_eq_false]
    intro x hx
    simp [hnoL x hx]
  simp only [lockSlot, hc, reserveWrite]
  rw [if_neg (by simp [hg])]
  rfl

/-- C1: the claim demands that two concurrent AcquireLock calls on the same
AVAILABLE slot yield exactly one success and one Conflict, with the loser
observing no partial state.  Because the handler is a read-then-write pair
with no status guard on the update, the interleaving in which both
validation reads precede both writes is admitted; there the loser's
slotLock.create hits the unique index slot_locks_slotId_key and the catch
block answers 500 — not the Conflict outcome — while the loser's unguarded
timeSlot.update has already committed, leaving the slot's lockedUntil at the
loser's 401 although the surviving lock row expires at the winner's 400.
Only the fully serialized order produces the specified Conflict. -/
theorem c1_raced_reserve_loser_gets_500 :
    (reserveRaced availDB 100 101 1 3 4 "111111" "222222").1 = .ok 10 "111111" 400 ∧
    (reserveRaced availDB 100 101 1 3 4 "111111" "222222").2.1 = .serverError ∧
    (findSlot (reserveRaced availDB 100 101 1 3 4 "111111" "222222").2.2 1).map
        TimeSlot.lockedUntil = some (some 401) ∧
    (locksFor (reserveRaced availDB 100 101 1 3 4 "111111" "222222").2.2 1).map
        SlotLock.otpExpiresAt = [400] ∧
    (lockSlot (lockSlot availDB 100 1 3 "111111" .ONLINE "" "").1 101 1 4 "222222"
        .ONLINE "" "").2 = .err .notAvailable := by
  decide

/-- C6: when slotLock.create fails after the slot update committed, the
handler's catch block answers 500 without compensating, leaving the slot
LOCKED with no SlotLock row — the rollback the claim requires never happens. -/
theorem c6_no_rollback_orphans_locked_slot :
    findSlot (lockSlotPersistFails availDB 100 1) 1 =
      some { slotA with status := .LOCKED, lockedUntil := some 400 } ∧
    locksFor (lockSlotPersistFails availDB 100 1) 1 = [] := by
  decide

/-- C9 counterexample: a slot whose start has passed but whose status is
LOCKED is rejected by the status check first, so the caller sees the
not-available Conflict outcome, not PastSlot as the claim states for every
past slot. -/
theorem c9_counterexample :
    slotStart { slotA with date := 0, startTime := 0, status := SlotStatus.LOCKED }
        ≤ 100 ∧
    (lockSlot c9DB 100 1 3 "111111" .ONLINE "" "").2 = .err .notAvailable ∧
    (lockSlot c9DB 100 1 3 "111111" .ONLINE "" "").1 = c9DB := by
  decide

/-- C5 counterexample: c5Slot starts exactly 24 hours and one second after
time 0, so the claim says it may be cancelled at time 0; the code compares
now against the slot's date field (midnight, only 39601 seconds away) and
refuses with the too-late outcome, mutating nothing. -/
theorem c5_counterexample :
    slotStart c5Slot - 0 = 86401 ∧
    cancelAppointment c5DB 0 7 3 .PATIENT "reason" = (c5DB, .tooLate) := by
  decide

/-- C4 counterexample: the claim requires a lock whose expiry has passed to
fail with Expired and a wrong passcode to fail with InvalidOtp — two distinct
outcomes.  The handler answers the single combined 400 message in both
situations: confirming with the correct passcode on an expired lock and
confirming with a wrong passcode on a live lock produce identical results. -/
theorem c4_counterexample :
    expiredLock.otpExpiresAt < 100 ∧
    confirmSlot expiredLockDB 100 1 3 "111111" = (expiredLockDB, .invalidOtpOrExpired) ∧
    confirmSlot validLockDB 100 1 3 "999999" = (validLockDB, .invalidOtpOrExpired) ∧
    (confirmSlot expiredLockDB 100 1 3 "111111").2 =
      (confirmSlot validLockDB 100 1 3 "999999").2 := by
  decide

/-- C2 counterexample: after a clean Reserve and Confirm, a Cancel issued
24 hours and one second before the slot's start instant — which the claim
says must succeed — is refused with the too-late outcome, because the code
measures the cutoff from the slot's date field (midnight), which is already
within 24 hours; the slot stays BOOKED and the appointment stays CONFIRMED. -/
theorem c2_counterexample :
    (confirmSlot (lockSlot availDB 0 1 3 "111111" ConsultationMode.ONLINE "" "").1
        10 1 3 "111111").2 = .ok 11 ∧
    slotStart slotA - 949599 = 86401 ∧
    (cancelAppointment c2DB2 949599 11 3 .PATIENT "reason").2 = .tooLate ∧
    (cancelAppointment c2DB2 949599 11 3 .PATIENT "reason").1 = c2DB2 ∧
    (findSlot c2DB2 1).map TimeSlot.status = some .BOOKED ∧
    (findAppt c2DB2 11).map Appointment.status = some .CONFIRMED := by
  decide

/-- C3 counterexample: cancelling an appointment whose slot has meanwhile
been re-locked by another patient performs a LOCKED to AVAILABLE slot
transition through the cancel path (the handler frees the slot without
checking its current status), a transition the claim says every operation
must reject. -/
theorem c3_counterexample :
    (findSlot c3DB4 1).map TimeSlot.status = some .LOCKED ∧
    (cancelAppointment c3DB4 140 11 3 .PATIENT "again").2 = .ok ∧
    (findSlot (cancelAppointment c3DB4 140 11 3 .PATIENT "again").1 1).map
        TimeSlot.status = some .AVAILABLE := by
  decide

/-- C9 (amended): for every slot that exists, is AVAILABLE, and whose start
instant has passed at acquisition time, the lock handler rejects with PastSlot
and performs no mutation; a past slot that is not AVAILABLE is instead
rejected by the status check, which runs first. -/
theorem c9_amended (db : DB) (now : Int) (slotId pid : Nat) (otp : String)
    (m : ConsultationMode) (sy nt : String) (s : TimeSlot)
    (hs : findSlot db slotId = some s) (hA : s.status = .AVAILABLE)
    (hP : slotStart s ≤ now) :
    lockSlot db now slotId pid otp m sy nt = (db, .err .pastSlot) := by
  have hc : reserveCheck db now slotId = some .pastSlot := by
    unfold reserveCheck
    rw [hs]
    simp [hA, hP]
  unfold lockSlot
  rw [hc]

/-- Witness for c9_amended at a concrete past AVAILABLE slot. -/
theorem c9_amended_witness :
    findSlot c9PastAvailDB 1 = some { slotA with date := 0, startTime := 0 } ∧
    ({ slotA with date := 0, startTime := 0 } : TimeSlot).status = .AVAILABLE ∧
    slotStart { slotA with date := 0, startTime := 0 } ≤ 100 ∧
    lockSlot c9PastAvailDB 100 1 3 "111111" .ONLINE "" ""
      = (c9PastAvailDB, .err .pastSlot) :=
  ⟨by decide, by decide, by decide,
    c9_amended c9PastAvailDB 100 1 3 "111111" .ONLINE "" ""
      { slotA with date := 0, startTime := 0 } (by decide) (by decide) (by decide)⟩

/-- C5 (amended): for an existing appointment the acting user may touch,
Cancel succeeds exactly when the current time is more than 24 hours before
the slot's date field (midnight of the slot's calendar day); otherwise it
fails with the too-late outcome and no state change.  Because the date
precedes the start instant, success still implies being more than 24 hours
before the start, and an appointment starting in 23 hours 59 minutes can
never be cancelled; but one starting in 24 hours and one second can be
cancelled only when its start time of day keeps midnight more than 24 hours
away as well. -/
theorem c5_amended (db : DB) (now : Int) (apptId userId : Nat) (role : Role)
    (reason : String) (a : Appointment) (s : TimeSlot)
    (ha : findAppt db apptId = some a)
    (hperm : role = .ADMIN ∨ a.patientId = userId ∨ a.doctorId = userId)
    (hs : findSlot db a.slotId = some s) :
    ((cancelAppointment db now apptId userId role reason).2 = .ok ↔
      86400 < s.date - now) ∧
    (s.date - now ≤ 86400 →
      cancelAppointment db now apptId userId role reason = (db, .tooLate)) ∧
    (86400 < s.date - now → 86400 < slotStart s - now) := by
  have hcond : ¬ (role ≠ Role.ADMIN ∧ a.patientId ≠ userId ∧ a.doctorId ≠ userId) := by
    tauto
  refine ⟨?_, ?_, ?_⟩
  · by_cases hc : 86400 < s.date - now
    · simp [cancelAppointment, ha, hs, hcond, canCancelOrReschedule, hc]
    · simp [cancelAppointment, ha, hs, hcond, canCancelOrReschedule, hc]
  · intro h2
    have hc : ¬ 86400 < s.date - now := by omega
    simp [cancelAppointment, ha, hs, hcond, canCancelOrReschedule, hc]
  · intro h2
    simp only [slotStart]
    omega

/-- Witness for c5_amended: the booked fixture appointment cancelled from far
enough in the past. -/
theorem c5_amended_witness :
    findAppt c5DB 7 = some c5Appt ∧
    c5Appt.patientId = 3 ∧
    findSlot c5DB c5Appt.slotId = some c5Slot ∧
    (((cancelAppointment c5DB (-100000) 7 3 .PATIENT "w").2 = .ok ↔
        86400 < c5Slot.date - (-100000)) ∧
      (c5Slot.date - (-100000) ≤ 86400 →
        cancelAppointment c5DB (-100000) 7 3 .PATIENT "w" = (c5DB, .tooLate)) ∧
      (86400 < c5Slot.date - (-100000) →
        86400 < slotStart c5Slot - (-100000))) :=
  ⟨by decide, by decide, by decide,
    c5_amended c5DB (-100000) 7 3 .PATIENT "w" c5Appt c5Slot (by decide)
      (Or.inr (Or.inl (by decide))) (by decide)⟩

/-- When the single lock row for the slot matches the caller and is
unexpired, the confirm handler's findFirst returns exactly it. -/
theorem findLock_of_unique {db : DB} {now : Int} {slotId pid : Nat}
    {otp : String} {l : SlotLock}
    (hl : db.locks.filter (fun l2 => l2.slotId == slotId) = [l])
    (hpid : l.patientId = pid) (hotp : l.otp = otp)
    (hexp : now < l.otpExpiresAt) :
    findLock db now slotId pid otp = some l := by
  have hmemf : l ∈ db.locks.filter (fun l2 => l2.slotId == slotId) := by
    rw [hl]
    simp
  have hmeml : l ∈ db.locks := (List.mem_filter.mp hmemf).1
  have hsid : l.slotId = slotId := by
    have := (List.mem_filter.mp hmemf).2
    simpa using this
  unfold findLock
  apply find?_eq_some_of_unique db.locks l hmeml
  · simp [hsid, hpid, hotp, hexp]
  · intro x hx hpx
    simp only [Bool.and_eq_true, beq_iff_eq, decide_eq_true_eq] at hpx
    obtain ⟨⟨⟨h1, h2⟩, h3⟩, h4⟩ := hpx
    have hmem : x ∈ db.locks.filter (fun l2 => l2.slotId == slotId) := by
      rw [List.mem_filter]
      exact ⟨hx, by simp [h1]⟩
    rw [hl] at hmem
    simpa using hmem

/-- C4 (amended): the confirm handler folds the claim's Expired and
InvalidOtp cases into one combined outcome: a missing lock, a lock of
another patient, a passcode mismatch, and a lapsed expiry all produce the
same invalid-or-expired answer.  Expiry is nonetheless decided by wall-clock
comparison at confirm time even when the row is still present.  A matching
passcode presented before expiry on a still LOCKED slot succeeds when no
appointment row occupies the slot; when some appointment row — even a
cancelled one — still carries the slot's id, appointment.create violates the
unique index appointments_slotId_key and the handler answers 500 instead. -/
theorem c4_amended (db : DB) (now : Int) (slotId pid : Nat) (otp : String) :
    (findLock db now slotId pid otp = none →
      confirmSlot db now slotId pid otp = (db, .invalidOtpOrExpired)) ∧
    (∀ l, locksFor db slotId = [l] → l.otpExpiresAt ≤ now →
      confirmSlot db now slotId pid otp = (db, .invalidOtpOrExpired)) ∧
    (∀ l s, locksFor db slotId = [l] → apptsFor db slotId = [] →
      l.patientId = pid → l.otp = otp →
      now < l.otpExpiresAt → findSlot db l.slotId = some s →
      s.status = .LOCKED →
      (confirmSlot db now slotId pid otp).2 = .ok db.nextId) ∧
    (∀ l s a0, locksFor db slotId = [l] → l.patientId = pid → l.otp = otp →
      now < l.otpExpiresAt → findSlot db l.slotId = some s →
      s.status = .LOCKED → a0 ∈ db.appointments → a0.slotId = slotId →
      confirmSlot db now slotId pid otp = (db, .serverError)) := by
  refine ⟨?_, ?_, ?_, ?_⟩
  · intro h
    simp [confirmSlot, h]
  · intro l hl hexp
    unfold locksFor at hl
    have hnone : findLock db now slotId pid otp = none := by
      unfold findLock
      rw [List.find?_eq_none]
      intro x hx hpx
      simp only [Bool.and_eq_true, beq_iff_eq, decide_eq_true_eq] at hpx
      obtain ⟨⟨⟨h1, h2⟩, h3⟩, h4⟩ := hpx
      have hxl : x = l := by
        have hmem : x ∈ db.locks.filter (fun l2 => l2.slotId == slotId) := by
          rw [List.mem_filter]
          exact ⟨hx, by simp [h1]⟩
        rw [hl] at hmem
        simpa using hmem
      rw [hxl] at h4
      omega
    simp [confirmSlot, hnone]
  · intro l s hl hA0 hpid hotp hexp hs hst
    unfold locksFor at hl
    unfold apptsFor at hA0
    have hfind := findLock_of_unique hl hpid hotp hexp
    have happF : db.appointments.any (fun a => a.slotId == slotId) = false := by
      rw [List.any_eq_false]
      intro x hx
      have := List.filter_eq_nil_iff.mp hA0 x hx
      simpa using this
    simp [confirmSlot, hfind, hs, hst, happF]
  · intro l s a0 hl hpid hotp hexp hs hst ha0 ha0sid
    unfold locksFor at hl
    have hfind := findLock_of_unique hl hpid hotp hexp
    have happT : db.appointments.any (fun a => a.slotId == slotId) = true :=
      List.any_eq_true.mpr ⟨a0, ha0, by simp [ha0sid]⟩
    simp [confirmSlot, hfind, hs, hst, happT]

/-- Witness for c4_amended covering all four conjuncts at concrete stores:
no lock at all, an expired lock with the right passcode, a live lock
confirmed with the right passcode on a slot with no appointment row, and a
live lock confirmed on the relocked slot whose cancelled appointment row
still occupies the unique index. -/
theorem c4_amended_witness :
    confirmSlot availDB 100 1 3 "111111" = (availDB, .invalidOtpOrExpired) ∧
    confirmSlot expiredLockDB 100 1 3 "111111"
      = (expiredLockDB, .invalidOtpOrExpired) ∧
    (confirmSlot validLockDB 100 1 3 "111111").2 = .ok 30 ∧
    confirmSlot relockedDB 100 1 3 "111111" = (relockedDB, .serverError) :=
  ⟨(c4_amended availDB 100 1 3 "111111").1 (by decide),
   (c4_amended expiredLockDB 100 1 3 "111111").2.1 expiredLock (by decide)
     (by decide),
   (c4_amended validLockDB 100 1 3 "111111").2.2.1
     { expiredLock with lockedUntil := 400, otpExpiresAt := 400 }
     { slotA with status := .LOCKED, lockedUntil := some 400 }
     (by decide) (by decide) (by decide) (by decide) (by decide) (by decide)
     (by decide),
   (c4_amended relockedDB 100 1 3 "111111").2.2.2
     { expiredLock with lockedUntil := 400, otpExpiresAt := 400 }
     { slotA with status := .LOCKED, lockedUntil := some 400 }
     { c5Appt with status := .CANCELLED }
     (by decide) (by decide) (by decide) (by decide) (by decide) (by decide)
     (by decide) (by decide)⟩

/-- C10: for every successful Confirm that follows the lock call, the created
appointment has consultationMode ONLINE and empty symptoms and notes, no
matter what consultation mode, symptoms and notes the patient submitted when
locking — the lock handler accepts those inputs and discards them, as the
equality of the two lock calls records. -/
theorem c10_confirm_ignores_lock_inputs (db : DB) (now1 now2 : Int)
    (slotId pid : Nat) (otp : String) (mode : ConsultationMode)
    (symptoms notes : String) (apptId : Nat)
    (h : (confirmSlot (lockSlot db now1 slotId pid otp mode symptoms notes).1
            now2 slotId pid otp).2 = .ok apptId) :
    lockSlot db now1 slotId pid otp mode symptoms notes
        = lockSlot db now1 slotId pid otp .ONLINE "" "" ∧
    ∃ a, ((confirmSlot (lockSlot db now1 slotId pid otp mode symptoms notes).1
            now2 slotId pid otp).1).appointments.getLast? = some a ∧
      a.consultationMode = .ONLINE ∧ a.symptoms = "" ∧ a.notes = "" ∧
      a.status = .CONFIRMED ∧ a.id = apptId := by
  refine ⟨rfl, ?_⟩
  cases hfl : findLock (lockSlot db now1 slotId pid otp mode symptoms notes).1
      now2 slotId pid otp with
  | none => simp [confirmSlot, hfl] at h
  | some l =>
    cases hfs : findSlot (lockSlot db now1 slotId pid otp mode symptoms notes).1
        l.slotId with
    | none => simp [confirmSlot, hfl, hfs] at h
    | some s =>
      by_cases hst : s.status = SlotStatus.LOCKED
      · by_cases happ : (lockSlot db now1 slotId pid otp mode symptoms notes).1.appointments.any (fun a => a.slotId == slotId) = true
        · simp [confirmSlot, hfl, hfs, hst, happ] at h
        · simp only [confirmSlot, hfl, hfs, hst] at h ⊢
          simp only [updateSlots] at h ⊢
          simp [happ] at h ⊢
          exact h
      · simp [confirmSlot, hfl, hfs, hst] at h

/-- Witness for c10_confirm_ignores_lock_inputs: an in-person request with
symptoms and notes still yields an ONLINE appointment with empty fields. -/
theorem c10_witness :
    (confirmSlot (lockSlot availDB 100 1 3 "111111" .IN_PERSON "cough" "note").1
        200 1 3 "111111").2 = .ok 11 ∧
    (lockSlot availDB 100 1 3 "111111" .IN_PERSON "cough" "note"
        = lockSlot availDB 100 1 3 "111111" .ONLINE "" "" ∧
      ∃ a, ((confirmSlot
              (lockSlot availDB 100 1 3 "111111" .IN_PERSON "cough" "note").1
              200 1 3 "111111").1).appointments.getLast? = some a ∧
        a.consultationMode = .ONLINE ∧ a.symptoms = "" ∧ a.notes = "" ∧
        a.status = .CONFIRMED ∧ a.id = 11) :=
  ⟨by decide,
   c10_confirm_ignores_lock_inputs availDB 100 200 1 3 "111111" .IN_PERSON
     "cough" "note" 11 (by decide)⟩

/-- The row found by findSlot carries the id it was looked up by. -/
theorem findSlot_id {db : DB} {i : Nat} {s : TimeSlot}
    (h : findSlot db i = some s) : s.id = i := by
  unfold findSlot at h
  have := List.find?_some h
  simpa using this

/-- After an id-preserving single-key update, a row found by id is either
untouched or is the image of the old row under the update. -/
theorem status_after_update {db : DB} {k i : Nat} {f : TimeSlot → TimeSlot}
    {s s' : TimeSlot}
    (h1 : findSlot db i = some s)
    (h2 : findSlot (updateSlots db k f) i = some s')
    (hf : ∀ t, (f t).id = t.id) :
    s' = s ∨ (s.id = k ∧ s' = f s) := by
  rw [findSlot_updateSlots db k i f hf, h1] at h2
  by_cases hik : s.id = k
  · right
    refine ⟨hik, ?_⟩
    simp [hik] at h2
    exact h2.symm
  · left
    simp [hik] at h2
    exact h2.symm

/-- What the confirm handler's slotLock.findFirst guarantees about the row it
returns. -/
theorem findLock_some {db : DB} {now : Int} {slotId pid : Nat} {otp : String}
    {l : SlotLock} (h : findLock db now slotId pid otp = some l) :
    l.slotId = slotId ∧ l.patientId = pid ∧ l.otp = otp ∧
      now < l.otpExpiresAt := by
  unfold findLock at h
  have := List.find?_some h
  simp only [Bool.and_eq_true, beq_iff_eq, decide_eq_true_eq] at this
  tauto

/-- C3 (amended): across the operations of the appointments router, a slot's
status changes only along AVAILABLE to LOCKED (lock), LOCKED to BOOKED
(confirm), or X to AVAILABLE for an arbitrary prior status X (cancel) — the
cancel handler frees the slot of the cancelled appointment unconditionally,
without checking that it is currently BOOKED, so the claim's restriction of
the cancellation edge to BOOKED does not hold; complete never touches a slot. -/
theorem c3_amended (db : DB) (now : Int) (op : CoreOp) (i : Nat)
    (s s' : TimeSlot) (h1 : findSlot db i = some s)
    (h2 : findSlot (applyOp db now op) i = some s') :
    s'.status = s.status ∨ allowedEdge op s.status s'.status := by
  cases op with
  | lockOp k p otp m sy nt =>
    cases hc : reserveCheck db now k with
    | some e =>
      have hd : applyOp db now (.lockOp k p otp m sy nt) = db := by
        simp [applyOp, lockSlot, hc]
      rw [hd, h1] at h2
      cases h2
      exact Or.inl rfl
    | none =>
      obtain ⟨u, hu, huA, huF⟩ := reserveCheck_eq_none hc
      have hupd : findSlot (applyOp db now (.lockOp k p otp m sy nt)) i
          = findSlot (updateSlots db k (fun t => { t with status := SlotStatus.LOCKED, lockedUntil := some (now + 300) })) i := by
        simp only [applyOp, lockSlot, hc, reserveWrite]
        by_cases hg : db.locks.any (fun l => l.slotId == k) = true
        · rw [if_pos hg]
        · rw [if_neg hg]
          rfl
      rw [hupd] at h2
      rcases status_after_update h1 h2 (fun t => rfl) with h | ⟨hik, hfs2⟩
      · exact Or.inl (by rw [h])
      · right
        have hsi : s.id = i := findSlot_id h1
        have hik2 : i = k := by rw [← hsi, hik]
        have hsu : s = u := by
          rw [hik2] at h1
          rw [h1] at hu
          exact Option.some.inj hu
        refine ⟨by rw [hsu]; exact huA, by rw [hfs2]⟩
  | confirmOp k p otp =>
    cases hfl : findLock db now k p otp with
    | none =>
      have hd : applyOp db now (.confirmOp k p otp) = db := by
        simp [applyOp, confirmSlot, hfl]
      rw [hd, h1] at h2
      cases h2
      exact Or.inl rfl
    | some l =>
      cases hfs : findSlot db l.slotId with
      | none =>
        have hd : applyOp db now (.confirmOp k p otp) = db := by
          simp [applyOp, confirmSlot, hfl, hfs]
        rw [hd, h1] at h2
        cases h2
        exact Or.inl rfl
      | some u =>
        by_cases hust : u.status = SlotStatus.LOCKED
        · by_cases happ : db.appointments.any (fun a => a.slotId == k) = true
          · have hd : applyOp db now (.confirmOp k p otp) = db := by
              simp [applyOp, confirmSlot, hfl, hfs, hust, happ]
            rw [hd, h1] at h2
            cases h2
            exact Or.inl rfl
          · have hupd : findSlot (applyOp db now (.confirmOp k p otp)) i
                = findSlot (updateSlots db k (fun t => { t with status := SlotStatus.BOOKED, appointmentId := some db.nextId })) i := by
              simp only [applyOp, confirmSlot, hfl, hfs, hust]
              rw [if_neg happ]
              rfl
            rw [hupd] at h2
            rcases status_after_update h1 h2 (fun t => rfl) with h | ⟨hik, hfs2⟩
            · exact Or.inl (by rw [h])
            · right
              have hsi : s.id = i := findSlot_id h1
              have hik2 : i = k := by rw [← hsi, hik]
              have hlk : l.slotId = k := (findLock_some hfl).1
              have hsu : s = u := by
                rw [hik2] at h1
                rw [hlk, h1] at hfs
                exact Option.some.inj hfs
              refine ⟨by rw [hsu]; exact hust, by rw [hfs2]⟩
        · have hd : applyOp db now (.confirmOp k p otp) = db := by
            simp [applyOp, confirmSlot, hfl, hfs, hust]
          rw [hd, h1] at h2
          cases h2
          exact Or.inl rfl
  | cancelOp aId uId role rs =>
    cases hfa : findAppt db aId with
    | none =>
      have hd : applyOp db now (.cancelOp aId uId role rs) = db := by
        simp [applyOp, cancelAppointment, hfa]
      rw [hd, h1] at h2
      cases h2
      exact Or.inl rfl
    | some a =>
      by_cases hcond : role ≠ Role.ADMIN ∧ a.patientId ≠ uId ∧ a.doctorId ≠ uId
      · have hd : applyOp db now (.cancelOp aId uId role rs) = db := by
          simp only [applyOp, cancelAppointment, hfa]
          rw [if_pos hcond]
        rw [hd, h1] at h2
        cases h2
        exact Or.inl rfl
      · cases hfs2 : findSlot db a.slotId with
        | none =>
          have hd : applyOp db now (.cancelOp aId uId role rs) = db := by
            simp only [applyOp, cancelAppointment, hfa]
            rw [if_neg hcond]
            simp [hfs2]
          rw [hd, h1] at h2
          cases h2
          exact Or.inl rfl
        | some u =>
          by_cases hcc : canCancelOrReschedule now u.date = true
          · have hupd : findSlot (applyOp db now (.cancelOp aId uId role rs)) i
                = findSlot (updateSlots db a.slotId (fun t => { t with status := SlotStatus.AVAILABLE, appointmentId := none })) i := by
              simp only [applyOp, cancelAppointment, hfa]
              rw [if_neg hcond]
              simp only [hfs2, hcc]
              rfl
            rw [hupd] at h2
            rcases status_after_update h1 h2 (fun t => rfl) with h | ⟨hik, hfs3⟩
            · exact Or.inl (by rw [h])
            · right
              show s'.status = SlotStatus.AVAILABLE
              rw [hfs3]
          · have hd : applyOp db now (.cancelOp aId uId role rs) = db := by
              simp only [applyOp, cancelAppointment, hfa]
              rw [if_neg hcond]
              simp [hfs2, hcc]
            rw [hd, h1] at h2
            cases h2
            exact Or.inl rfl
  | completeOp aId dId pr fu =>
    have hd : findSlot (applyOp db now (.completeOp aId dId pr fu)) i
        = findSlot db i := by
      cases hfa : findAppt db aId with
      | none => simp [applyOp, completeAppointment, hfa]
      | some a =>
        by_cases hown : a.doctorId ≠ dId
        · simp only [applyOp, completeAppointment, hfa]
          rw [if_pos hown]
        · simp only [applyOp, completeAppointment, hfa]
          rw [if_neg hown]
          rfl
    rw [hd, h1] at h2
    cases h2
    exact Or.inl rfl

/-- Witness for c3_amended: the lock operation on the available fixture slot
traverses the AVAILABLE to LOCKED edge. -/
theorem c3_amended_witness :
    findSlot availDB 1 = some slotA ∧
    findSlot (applyOp availDB 100 (CoreOp.lockOp 1 3 "111111" .ONLINE "" "")) 1
      = some { slotA with status := .LOCKED, lockedUntil := some 400 } ∧
    (({ slotA with status := .LOCKED, lockedUntil := some 400 } : TimeSlot).status
        = slotA.status ∨
      allowedEdge (CoreOp.lockOp 1 3 "111111" .ONLINE "" "") slotA.status
        ({ slotA with status := .LOCKED, lockedUntil := some 400 } : TimeSlot).status) :=
  ⟨by decide, by decide,
    c3_amended availDB 100 (CoreOp.lockOp 1 3 "111111" .ONLINE "" "") 1 slotA
      { slotA with status := .LOCKED, lockedUntil := some 400 }
      (by decide) (by decide)⟩

/-- A sweeper step only ever removes lock rows. -/
theorem sweepStep_locks_sub {now : Int} {db : DB} {l x : SlotLock}
    (hx : x ∈ (sweepStep now db l).locks) : x ∈ db.locks := by
  unfold sweepStep at hx
  by_cases he : l.otpExpiresAt < now
  · rw [if_pos he] at hx
    cases hfs : findSlot db l.slotId with
    | none => simp only [hfs] at hx; exact hx
    | some s =>
      simp only [hfs] at hx
      by_cases hst : s.status = SlotStatus.LOCKED
      · rw [if_pos hst] at hx
        exact (List.mem_filter.mp hx).1
      · rw [if_neg hst] at hx
        exact hx
  · rw [if_neg he] at hx
    exact hx

/-- A sweeper step either leaves a slot lookup unchanged or turns the found
row into its AVAILABLE image with the lock expiry cleared. -/
theorem sweepStep_findSlot (now : Int) (db : DB) (l : SlotLock) (i : Nat) :
    findSlot (sweepStep now db l) i = findSlot db i ∨
    ∃ u, findSlot db i = some u ∧
      findSlot (sweepStep now db l) i
        = some { u with status := SlotStatus.AVAILABLE, lockedUntil := none } := by
  unfold sweepStep
  by_cases he : l.otpExpiresAt < now
  · rw [if_pos he]
    split
    next s hfs =>
      split
      next hst =>
        have hbase := findSlot_updateSlots db l.slotId i
          (fun t => { t with status := SlotStatus.AVAILABLE, lockedUntil := none })
          (fun t => rfl)
        cases hfind : findSlot db i with
        | none =>
          left
          rw [hfind] at hbase
          simp only [Option.map_none'] at hbase
          exact hbase
        | some u =>
          rw [hfind] at hbase
          simp only [Option.map_some'] at hbase
          by_cases hui : u.id = l.slotId
          · right
            refine ⟨u, rfl, ?_⟩
            rw [if_pos (by simpa using hui)] at hbase
            exact hbase
          · left
            rw [if_neg (by simpa using hui)] at hbase
            exact hbase
      next hst => exact Or.inl rfl
    next hfs => exact Or.inl rfl
  · rw [if_neg he]
    exact Or.inl rfl

/-- A sweeper step whose lock references another slot leaves a lookup
unchanged. -/
theorem sweepStep_findSlot_of_ne {now : Int} {db : DB} {l : SlotLock} {i : Nat}
    (h : l.slotId ≠ i) :
    findSlot (sweepStep now db l) i = findSlot db i := by
  unfold sweepStep
  by_cases he : l.otpExpiresAt < now
  · rw [if_pos he]
    split
    next s hfs =>
      split
      next hst =>
        have hbase := findSlot_updateSlots db l.slotId i
          (fun t => { t with status := SlotStatus.AVAILABLE, lockedUntil := none })
          (fun t => rfl)
        cases hfind : findSlot db i with
        | none =>
          rw [hfind] at hbase
          simp only [Option.map_none'] at hbase
          exact hbase
        | some u =>
          rw [hfind] at hbase
          have hui : u.id ≠ l.slotId := by
            rw [findSlot_id hfind]
            exact fun heq => h heq.symm
          simp only [Option.map_some'] at hbase
          rw [if_neg (by simpa using hui)] at hbase
          exact hbase
      next hst => rfl
    next hfs => rfl
  · rw [if_neg he]

/-- One full fold of sweeper steps either leaves a slot lookup unchanged or
turns the found row into its AVAILABLE image. -/
theorem sweepFold_findSlot (now : Int) :
    ∀ (L : List SlotLock) (acc : DB) (i : Nat),
      findSlot (L.foldl (sweepStep now) acc) i = findSlot acc i ∨
      ∃ u, findSlot acc i = some u ∧
        findSlot (L.foldl (sweepStep now) acc) i
          = some { u with status := SlotStatus.AVAILABLE, lockedUntil := none } := by
  intro L
  induction L with
  | nil => intro acc i; exact Or.inl rfl
  | cons x xs ih =>
    intro acc i
    rcases sweepStep_findSlot now acc x i with h1 | ⟨u, hu1, hu2⟩
    · rcases ih (sweepStep now acc x) i with h2 | ⟨v, hv1, hv2⟩
      · exact Or.inl (by rw [List.foldl_cons, h2, h1])
      · right
        refine ⟨v, ?_, ?_⟩
        · rw [← h1]; exact hv1
        · rw [List.foldl_cons]; exact hv2
    · rcases ih (sweepStep now acc x) i with h2 | ⟨v, hv1, hv2⟩
      · right
        refine ⟨u, hu1, ?_⟩
        rw [List.foldl_cons, h2]
        exact hu2
      · right
        refine ⟨u, hu1, ?_⟩
        rw [List.foldl_cons, hv2]
        have hv : v = { u with status := SlotStatus.AVAILABLE, lockedUntil := none } := by
          rw [hu2] at hv1
          exact (Option.some.inj hv1).symm
        rw [hv]

/-- Folding sweeper steps only removes lock rows. -/
theorem sweepFold_locks_sub {now : Int} :
    ∀ (L : List SlotLock) (acc : DB) (x : SlotLock),
      x ∈ (L.foldl (sweepStep now) acc).locks → x ∈ acc.locks := by
  intro L
  induction L with
  | nil => intro acc x h; exact h
  | cons y ys ih =>
    intro acc x h
    exact sweepStep_locks_sub (ih (sweepStep now acc y) x h)

/-- Folding sweeper steps over locks that all reference other slots leaves a
lookup unchanged. -/
theorem sweepFold_findSlot_of_ne {now : Int} :
    ∀ (L : List SlotLock) (acc : DB) (i : Nat), (∀ x ∈ L, x.slotId ≠ i) →
      findSlot (L.foldl (sweepStep now) acc) i = findSlot acc i := by
  intro L
  induction L with
  | nil => intro acc i _; rfl
  | cons y ys ih =>
    intro acc i h
    rw [List.foldl_cons, ih (sweepStep now acc y) i
      (fun x hx => h x (List.mem_cons_of_mem _ hx)),
      sweepStep_findSlot_of_ne (h y (List.mem_cons_self _ _))]

/-- After one full sweeper run, every surviving lock row whose expiry has
passed references a slot that is no longer LOCKED. -/
theorem sweepFold_good (now : Int) :
    ∀ (L : List SlotLock) (acc : DB),
      (∀ l ∈ acc.locks, l ∈ L ∨ (l.otpExpiresAt < now →
        ∀ s, findSlot acc l.slotId = some s → s.status ≠ SlotStatus.LOCKED)) →
      ∀ l ∈ (L.foldl (sweepStep now) acc).locks, l.otpExpiresAt < now →
        ∀ s, findSlot (L.foldl (sweepStep now) acc) l.slotId = some s →
          s.status ≠ SlotStatus.LOCKED := by
  intro L
  induction L with
  | nil =>
    intro acc hacc l hl
    rcases hacc l hl with h | h
    · cases h
    · exact h
  | cons x xs ih =>
    intro acc hacc
    apply ih (sweepStep now acc x)
    intro l hl
    have hl0 : l ∈ acc.locks := sweepStep_locks_sub hl
    rcases hacc l hl0 with hmem | hgood
    · rcases List.mem_cons.mp hmem with rfl | hxs
      · right
        intro hexp s hs
        cases hfs : findSlot acc l.slotId with
        | none =>
          have hsame : sweepStep now acc l = acc := by
            unfold sweepStep
            rw [if_pos hexp]
            simp [hfs]
          rw [hsame, hfs] at hs
          cases hs
        | some u =>
          by_cases hst : u.status = SlotStatus.LOCKED
          · exfalso
            have hmemf := hl
            unfold sweepStep at hmemf
            rw [if_pos hexp] at hmemf
            simp only [hfs] at hmemf
            rw [if_pos hst] at hmemf
            have := (List.mem_filter.mp hmemf).2
            simp at this
          · have hsame : sweepStep now acc l = acc := by
              unfold sweepStep
              rw [if_pos hexp]
              simp [hfs, hst]
            rw [hsame, hfs] at hs
            rw [← Option.some.inj hs]
            exact hst
      · exact Or.inl hxs
    · right
      intro hexp s hs
      rcases sweepStep_findSlot now acc x l.slotId with he | ⟨u, hu1, hu2⟩
      · rw [he] at hs
        exact hgood hexp s hs
      · rw [hu2] at hs
        rw [← Option.some.inj hs]
        simp

/-- A sweeper fold over locks that are all unexpired or reference slots that
are not LOCKED changes nothing. -/
theorem sweep_noop_of_good {now : Int} :
    ∀ (L : List SlotLock) (acc : DB),
      (∀ l ∈ L, l.otpExpiresAt < now →
        ∀ s, findSlot acc l.slotId = some s → s.status ≠ SlotStatus.LOCKED) →
      L.foldl (sweepStep now) acc = acc := by
  intro L
  induction L with
  | nil => intro acc _; rfl
  | cons x xs ih =>
    intro acc h
    have hx : sweepStep now acc x = acc := by
      by_cases hexp : x.otpExpiresAt < now
      · unfold sweepStep
        rw [if_pos hexp]
        cases hfs : findSlot acc x.slotId with
        | none => simp [hfs]
        | some u =>
          have hnl : u.status ≠ SlotStatus.LOCKED :=
            h x (List.mem_cons_self _ _) hexp u hfs
          simp [hfs, hnl]
      · unfold sweepStep
        rw [if_neg hexp]
    rw [List.foldl_cons, hx]
    exact ih acc (fun l hl => h l (List.mem_cons_of_mem _ hl))

/-- The exact effect of one sweeper step on an expired lock whose slot is
LOCKED. -/
theorem sweepStep_eq_of_locked {now : Int} {db : DB} {l : SlotLock}
    {s : TimeSlot} (hexp : l.otpExpiresAt < now)
    (hs : findSlot db l.slotId = some s)
    (hst : s.status = SlotStatus.LOCKED) :
    sweepStep now db l
      = { updateSlots db l.slotId (fun t => { t with status := SlotStatus.AVAILABLE, lockedUntil := none }) with
          locks := db.locks.filter (fun l2 => l2.id != l.id) } := by
  unfold sweepStep
  rw [if_pos hexp]
  simp only [hs]
  rw [if_pos hst]
  rfl

/-- C7: for every SlotLock whose expiry timestamp is in the past and whose
linked slot is LOCKED, one sweeper run moves the slot back to AVAILABLE with
the lock expiry cleared and deletes the SlotLock row, with no client call
involved; and a second run over the resulting state changes nothing.  The
uniqueness hypothesis mirrors the spec's at-most-one-active-lock-per-slot
invariant. -/
theorem c7_sweeper (db : DB) (now : Int) (l : SlotLock) (s : TimeSlot)
    (hnd : (db.locks.map (fun l2 => l2.slotId)).Nodup)
    (hmem : l ∈ db.locks)
    (hexp : l.otpExpiresAt < now)
    (hs : findSlot db l.slotId = some s)
    (hst : s.status = .LOCKED) :
    findSlot (sweep db now) l.slotId
        = some { s with status := .AVAILABLE, lockedUntil := none } ∧
    (∀ x ∈ (sweep db now).locks, x.id ≠ l.id) ∧
    sweep (sweep db now) now = sweep db now := by
  obtain ⟨L1, L2, hsplit⟩ := List.append_of_mem hmem
  rw [hsplit, List.map_append, List.map_cons, List.nodup_append] at hnd
  obtain ⟨hndL1, hndcons, hdisj⟩ := hnd
  have hL1 : ∀ x ∈ L1, x.slotId ≠ l.slotId := by
    intro x hx heq
    exact hdisj (List.mem_map_of_mem _ hx)
      (by rw [heq]; exact List.mem_cons_self _ _)
  have hL2 : ∀ x ∈ L2, x.slotId ≠ l.slotId := by
    intro x hx heq
    rw [List.nodup_cons] at hndcons
    exact hndcons.1 (by rw [← heq]; exact List.mem_map_of_mem _ hx)
  have hsweep : sweep db now
      = L2.foldl (sweepStep now) (sweepStep now (L1.foldl (sweepStep now) db) l) := by
    unfold sweep
    rw [hsplit, List.foldl_append, List.foldl_cons]
  have hacc1 : findSlot (L1.foldl (sweepStep now) db) l.slotId = some s := by
    rw [sweepFold_findSlot_of_ne L1 db l.slotId hL1]
    exact hs
  have hsid : s.id = l.slotId := findSlot_id hacc1
  have hstepeq := sweepStep_eq_of_locked hexp hacc1 hst
  have hstep1 : findSlot (sweepStep now (L1.foldl (sweepStep now) db) l) l.slotId
      = some { s with status := .AVAILABLE, lockedUntil := none } := by
    rw [hstepeq]
    have hbase := findSlot_updateSlots (L1.foldl (sweepStep now) db) l.slotId l.slotId
      (fun t => { t with status := SlotStatus.AVAILABLE, lockedUntil := none })
      (fun t => rfl)
    rw [hacc1] at hbase
    simp only [Option.map_some'] at hbase
    rw [if_pos (by simpa using hsid)] at hbase
    exact hbase
  have hstep2 : ∀ x ∈ (sweepStep now (L1.foldl (sweepStep now) db) l).locks,
      x.id ≠ l.id := by
    intro x hx
    rw [hstepeq] at hx
    have := (List.mem_filter.mp hx).2
    simpa using this
  refine ⟨?_, ?_, ?_⟩
  · rw [hsweep]
    rw [sweepFold_findSlot_of_ne L2 _ l.slotId hL2]
    exact hstep1
  · intro x hx
    rw [hsweep] at hx
    exact hstep2 x (sweepFold_locks_sub L2 _ x hx)
  · have hGood := sweepFold_good now db.locks db (fun l2 hl2 => Or.inl hl2)
    exact sweep_noop_of_good (sweep db now).locks (sweep db now) hGood

/-- Witness for c7_sweeper on the expired-lock fixture. -/
theorem c7_sweeper_witness :
    (expiredLockDB.locks.map (fun l2 => l2.slotId)).Nodup ∧
    expiredLock ∈ expiredLockDB.locks ∧
    expiredLock.otpExpiresAt < 100 ∧
    findSlot expiredLockDB expiredLock.slotId = some slotL ∧
    slotL.status = .LOCKED ∧
    (findSlot (sweep expiredLockDB 100) expiredLock.slotId
        = some { slotL with status := .AVAILABLE, lockedUntil := none } ∧
      (∀ x ∈ (sweep expiredLockDB 100).locks, x.id ≠ expiredLock.id) ∧
      sweep (sweep expiredLockDB 100) 100 = sweep expiredLockDB 100) :=
  ⟨by decide, by decide, by decide, by decide, by decide,
    c7_sweeper expiredLockDB 100 expiredLock slotL (by decide) (by decide)
      (by decide) (by decide) (by decide)⟩

/-- Inserting a candidate slot preserves every existing row verbatim. -/
theorem insertCandidate_mem {rule : RecurringRule} {db : DB} {d : Nat}
    {s : TimeSlot} (h : s ∈ db.slots) : s ∈ (insertCandidate rule db d).slots := by
  unfold insertCandidate
  split
  · exact h
  · exact List.mem_append_left _ h

/-- Inserting a candidate preserves the presence of any natural key. -/
theorem hasKey_insertCandidate {rule : RecurringRule} {db : DB}
    {doc d0 st et d : Nat} (h : hasKey db doc d0 st et = true) :
    hasKey (insertCandidate rule db d) doc d0 st et = true := by
  unfold insertCandidate
  split
  · exact h
  · simp only [hasKey] at h ⊢
    simp [List.any_append, h]

/-- After inserting a candidate date, its natural key is present. -/
theorem insertCandidate_makes {rule : RecurringRule} {db : DB} {d : Nat} :
    hasKey (insertCandidate rule db d) rule.doctorId d rule.startTime
      rule.endTime = true := by
  unfold insertCandidate
  split
  next h => exact h
  next h => simp [hasKey, List.any_append]

/-- Inserting a candidate whose natural key already exists changes nothing. -/
theorem insertCandidate_of_hasKey {rule : RecurringRule} {db : DB} {d : Nat}
    (h : hasKey db rule.doctorId d rule.startTime rule.endTime = true) :
    insertCandidate rule db d = db := by
  unfold insertCandidate
  rw [if_pos h]

/-- A whole expansion fold preserves the presence of any natural key. -/
theorem expandFold_hasKey {rule : RecurringRule} {doc d0 st et : Nat} :
    ∀ (ds : List Nat) (db : DB), hasKey db doc d0 st et = true →
      hasKey (ds.foldl (insertCandidate rule) db) doc d0 st et = true := by
  intro ds
  induction ds with
  | nil => intro db h; exact h
  | cons x xs ih => intro db h; exact ih _ (hasKey_insertCandidate h)

/-- After an expansion fold, every processed candidate date's key is present. -/
theorem expandFold_makes {rule : RecurringRule} :
    ∀ (ds : List Nat) (db : DB) (d : Nat), d ∈ ds →
      hasKey (ds.foldl (insertCandidate rule) db) rule.doctorId d rule.startTime
        rule.endTime = true := by
  intro ds
  induction ds with
  | nil => intro db d h; cases h
  | cons x xs ih =>
    intro db d h
    rcases List.mem_cons.mp h with rfl | hxs
    · exact expandFold_hasKey xs _ insertCandidate_makes
    · exact ih _ d hxs

/-- An expansion fold over dates whose keys are all already present is the
identity. -/
theorem expandFold_noop {rule : RecurringRule} :
    ∀ (ds : List Nat) (db : DB),
      (∀ d ∈ ds, hasKey db rule.doctorId d rule.startTime rule.endTime = true) →
      ds.foldl (insertCandidate rule) db = db := by
  intro ds
  induction ds with
  | nil => intro db _; rfl
  | cons x xs ih =>
    intro db h
    rw [List.foldl_cons, insertCandidate_of_hasKey (h x (List.mem_cons_self _ _))]
    exact ih db (fun d hd => h d (List.mem_cons_of_mem _ hd))

/-- An expansion fold preserves every existing slot row verbatim. -/
theorem expandFold_mem {rule : RecurringRule} :
    ∀ (ds : List Nat) (db : DB) (s : TimeSlot), s ∈ db.slots →
      s ∈ (ds.foldl (insertCandidate rule) db).slots := by
  intro ds
  induction ds with
  | nil => intro db s h; exact h
  | cons x xs ih => intro db s h; exact ih _ s (insertCandidate_mem h)

/-- C8: Expand is idempotent — running it a second time with the same rule and
horizon is the identity on the store, because every candidate key was made
present by the first run and insertion skips present keys; and a repeat run
leaves every already-materialized slot row untouched whatever its status. -/
theorem c8_expand_idempotent (db : DB) (rule : RecurringRule)
    (today horizonEnd : Nat) :
    expandRule (expandRule db rule today horizonEnd) rule today horizonEnd
        = expandRule db rule today horizonEnd ∧
    ∀ s ∈ db.slots, s ∈ (expandRule db rule today horizonEnd).slots := by
  constructor
  · unfold expandRule
    apply expandFold_noop
    intro d hd
    exact expandFold_makes (candidateDays rule today horizonEnd) db d hd
  · intro s hs
    unfold expandRule
    exact expandFold_mem _ db s hs

/-- Witness for c8_expand_idempotent on the weekly fixture rule over a
15-day horizon. -/
theorem c8_witness :
    expandRule (expandRule availDB ruleA 0 14) ruleA 0 14
        = expandRule availDB ruleA 0 14 ∧
    slotA ∈ (expandRule availDB ruleA 0 14).slots :=
  ⟨(c8_expand_idempotent availDB ruleA 0 14).1,
   (c8_expand_idempotent availDB ruleA 0 14).2 slotA (by decide)⟩

/-- The full effect of a successful confirm call, as one equation. -/
theorem confirmSlot_success {db : DB} {now : Int} {slotId pid : Nat}
    {otp : String} {l : SlotLock} {s : TimeSlot}
    (hfl : findLock db now slotId pid otp = some l)
    (hfs : findSlot db l.slotId = some s)
    (hst : s.status = SlotStatus.LOCKED)
    (hA0 : ∀ x ∈ db.appointments, x.slotId ≠ slotId) :
    confirmSlot db now slotId pid otp =
      (DB.mk
        (db.slots.map (fun t => if t.id == slotId then { t with status := SlotStatus.BOOKED, appointmentId := some db.nextId } else t))
        (db.locks.filter (fun l2 => l2.id != l.id))
        (db.appointments ++
          [Appointment.mk db.nextId pid s.doctorId slotId .CONFIRMED .ONLINE
            "" "" none none none none none])
        (db.nextId + 1),
       .ok db.nextId) := by
  have hG : db.appointments.any (fun a => a.slotId == slotId) = false := by
    rw [List.any_eq_false]
    intro x hx
    simp [hA0 x hx]
  unfold confirmSlot
  simp only [hfl, hfs]
  rw [if_neg (by simp [hst])]
  rw [if_neg (by simp [hG])]
  rfl

/-- The full effect of a successful cancel call, as one equation. -/
theorem cancelAppointment_success {db : DB} {now : Int} {apptId userId : Nat}
    {role : Role} {reason : String} {a : Appointment} {s : TimeSlot}
    (ha : findAppt db apptId = some a)
    (hperm : role = .ADMIN ∨ a.patientId = userId ∨ a.doctorId = userId)
    (hs : findSlot db a.slotId = some s)
    (hcc : 86400 < s.date - now) :
    cancelAppointment db now apptId userId role reason =
      (DB.mk
        (db.slots.map (fun t => if t.id == a.slotId then { t with status := SlotStatus.AVAILABLE, appointmentId := none } else t))
        db.locks
        (db.appointments.map (fun a2 => if a2.id == apptId then { a2 with status := AppointmentStatus.CANCELLED, cancelledAt := some now, cancelledBy := some userId, cancellationReason := some reason } else a2))
        db.nextId,
       .ok) := by
  unfold cancelAppointment
  simp only [ha]
  rw [if_neg (by tauto)]
  simp only [hs]
  rw [if_pos (by simp [canCancelOrReschedule, hcc])]
  rfl


/-- Projection of an explicit store value. -/
theorem findSlot_mk (A : List TimeSlot) (B : List SlotLock)
    (C : List Appointment) (n i : Nat) :
    findSlot (DB.mk A B C n) i = A.find? (fun t => t.id == i) := rfl

/-- Projection of an explicit store value. -/
theorem findAppt_mk (A : List TimeSlot) (B : List SlotLock)
    (C : List Appointment) (n i : Nat) :
    findAppt (DB.mk A B C n) i = C.find? (fun a => a.id == i) := rfl

/-- Projection of an explicit store value. -/
theorem locksFor_mk (A : List TimeSlot) (B : List SlotLock)
    (C : List Appointment) (n sid : Nat) :
    locksFor (DB.mk A B C n) sid = B.filter (fun l => l.slotId == sid) := rfl

/-- Projection of an explicit store value. -/
theorem apptsFor_mk (A : List TimeSlot) (B : List SlotLock)
    (C : List Appointment) (n sid : Nat) :
    apptsFor (DB.mk A B C n) sid = C.filter (fun a => a.slotId == sid) := rfl

/-- Projection of an explicit store value. -/
theorem findLock_mk (A : List TimeSlot) (B : List SlotLock)
    (C : List Appointment) (n : Nat) (now : Int) (sid pid : Nat) (otp : String) :
    findLock (DB.mk A B C n) now sid pid otp
      = B.find? (fun l => l.slotId == sid && l.patientId == pid &&
          l.otp == otp && decide (now < l.otpExpiresAt)) := rfl

/-- C2 (amended): from an AVAILABLE slot with a future start and no
pre-existing lock or appointment rows for it, Reserve followed by Confirm
with the matching passcode inside the five-minute window leaves the slot
BOOKED with exactly one appointment linked to it and no SlotLock row; a
subsequent Cancel issued while the slot's date field (midnight of its
calendar day — the reference point the code actually uses, rather than the
start instant the claim names) is still more than 24 hours away returns the
slot to AVAILABLE and leaves the appointment CANCELLED, again with no
orphaned SlotLock row. -/
theorem c2_amended (db : DB) (now1 now2 now3 : Int) (slotId pid : Nat)
    (otp reason : String) (s : TimeSlot)
    (h1 : findSlot db slotId = some s)
    (hA : s.status = .AVAILABLE)
    (hF : now1 < slotStart s)
    (hW : now2 < now1 + 300)
    (hC : 86400 < s.date - now3)
    (hL0 : locksFor db slotId = [])
    (hA0 : apptsFor db slotId = [])
    (hFresh : ∀ x ∈ db.appointments, x.id ≠ db.nextId + 1) :
    (confirmSlot (lockSlot db now1 slotId pid otp .ONLINE "" "").1 now2 slotId pid otp).2
        = .ok (db.nextId + 1) ∧
    (∃ s2, findSlot (confirmSlot (lockSlot db now1 slotId pid otp .ONLINE "" "").1 now2 slotId pid otp).1 slotId = some s2 ∧
      s2.status = .BOOKED ∧ s2.appointmentId = some (db.nextId + 1)) ∧
    (apptsFor (confirmSlot (lockSlot db now1 slotId pid otp .ONLINE "" "").1 now2 slotId pid otp).1 slotId).length = 1 ∧
    locksFor (confirmSlot (lockSlot db now1 slotId pid otp .ONLINE "" "").1 now2 slotId pid otp).1 slotId = [] ∧
    (cancelAppointment (confirmSlot (lockSlot db now1 slotId pid otp .ONLINE "" "").1 now2 slotId pid otp).1 now3 (db.nextId + 1) pid .PATIENT reason).2 = .ok ∧
    (∃ s3, findSlot (cancelAppointment (confirmSlot (lockSlot db now1 slotId pid otp .ONLINE "" "").1 now2 slotId pid otp).1 now3 (db.nextId + 1) pid .PATIENT reason).1 slotId = some s3 ∧
      s3.status = .AVAILABLE) ∧
    (∃ a3, findAppt (cancelAppointment (confirmSlot (lockSlot db now1 slotId pid otp .ONLINE "" "").1 now2 slotId pid otp).1 now3 (db.nextId + 1) pid .PATIENT reason).1 (db.nextId + 1) = some a3 ∧
      a3.status = .CANCELLED ∧ a3.slotId = slotId) ∧
    locksFor (cancelAppointment (confirmSlot (lockSlot db now1 slotId pid otp .ONLINE "" "").1 now2 slotId pid otp).1 now3 (db.nextId + 1) pid .PATIENT reason).1 slotId = [] := by
  have hsid : s.id = slotId := findSlot_id h1
  unfold locksFor at hL0
  unfold apptsFor at hA0
  have hnoL : ∀ x ∈ db.locks, x.slotId ≠ slotId := by
    intro x hx heq
    have := List.filter_eq_nil_iff.mp hL0 x hx
    simp [heq] at this
  have hnoA : ∀ x ∈ db.appointments, x.slotId ≠ slotId := by
    intro x hx heq
    have := List.filter_eq_nil_iff.mp hA0 x hx
    simp [heq] at this
  have e1 : (lockSlot db now1 slotId pid otp ConsultationMode.ONLINE "" "").1
      = DB.mk
          (db.slots.map (fun t => if t.id == slotId then { t with status := SlotStatus.LOCKED, lockedUntil := some (now1 + 300) } else t))
          (db.locks ++ [SlotLock.mk db.nextId slotId pid (now1 + 300) otp (now1 + 300)])
          db.appointments
          (db.nextId + 1) := by
    rw [lockSlot_success h1 hA hF hnoL]
  rw [e1]
  have hpre : db.locks.find? (fun l => l.slotId == slotId && l.patientId == pid &&
      l.otp == otp && decide (now2 < l.otpExpiresAt)) = none := by
    rw [List.find?_eq_none]
    intro x hx hpx
    simp only [Bool.and_eq_true, beq_iff_eq, decide_eq_true_eq] at hpx
    exact hnoL x hx hpx.1.1.1
  have h1x : db.slots.find? (fun t => t.id == slotId) = some s := h1
  have hfindA1 : (db.slots.map (fun t => if t.id == slotId then { t with status := SlotStatus.LOCKED, lockedUntil := some (now1 + 300) } else t)).find? (fun t => t.id == slotId) = some ({ s with status := SlotStatus.LOCKED, lockedUntil := some (now1 + 300) } : TimeSlot) := by
    rw [find?_map_of_key TimeSlot.id (fun t => { t with status := SlotStatus.LOCKED, lockedUntil := some (now1 + 300) }) (fun t => rfl) db.slots slotId slotId,
      h1x, Option.map_some']
    rw [if_pos (by simpa using hsid)]
  have hfl : findLock (DB.mk (db.slots.map (fun t => if t.id == slotId then { t with status := SlotStatus.LOCKED, lockedUntil := some (now1 + 300) } else t)) (db.locks ++ [(SlotLock.mk db.nextId slotId pid (now1 + 300) otp (now1 + 300))]) db.appointments (db.nextId + 1)) now2 slotId pid otp = some (SlotLock.mk db.nextId slotId pid (now1 + 300) otp (now1 + 300)) := by
    rw [findLock_mk, find?_append_of_none hpre]
    rw [List.find?_cons_of_pos _ (by simp [hW])]
  have hfsl : findSlot (DB.mk (db.slots.map (fun t => if t.id == slotId then { t with status := SlotStatus.LOCKED, lockedUntil := some (now1 + 300) } else t)) (db.locks ++ [(SlotLock.mk db.nextId slotId pid (now1 + 300) otp (now1 + 300))]) db.appointments (db.nextId + 1)) (SlotLock.mk db.nextId slotId pid (now1 + 300) otp (now1 + 300)).slotId = some ({ s with status := SlotStatus.LOCKED, lockedUntil := some (now1 + 300) } : TimeSlot) := by
    rw [findSlot_mk]
    exact hfindA1
  have hconfRaw := confirmSlot_success hfl hfsl rfl hnoA
  have hconf : confirmSlot (DB.mk (db.slots.map (fun t => if t.id == slotId then { t with status := SlotStatus.LOCKED, lockedUntil := some (now1 + 300) } else t)) (db.locks ++ [(SlotLock.mk db.nextId slotId pid (now1 + 300) otp (now1 + 300))]) db.appointments (db.nextId + 1)) now2 slotId pid otp
      = ((DB.mk ((db.slots.map (fun t => if t.id == slotId then { t with status := SlotStatus.LOCKED, lockedUntil := some (now1 + 300) } else t)).map (fun t => if t.id == slotId then { t with status := SlotStatus.BOOKED, appointmentId := some (db.nextId + 1) } else t)) ((db.locks ++ [(SlotLock.mk db.nextId slotId pid (now1 + 300) otp (now1 + 300))]).filter (fun l2 => l2.id != db.nextId)) (db.appointments ++ [(Appointment.mk (db.nextId + 1) pid s.doctorId slotId AppointmentStatus.CONFIRMED ConsultationMode.ONLINE "" "" none none none none none)]) (db.nextId + 1 + 1)), .ok (db.nextId + 1)) := hconfRaw
  have hconf1 : (confirmSlot (DB.mk (db.slots.map (fun t => if t.id == slotId then { t with status := SlotStatus.LOCKED, lockedUntil := some (now1 + 300) } else t)) (db.locks ++ [(SlotLock.mk db.nextId slotId pid (now1 + 300) otp (now1 + 300))]) db.appointments (db.nextId + 1)) now2 slotId pid otp).1 = (DB.mk ((db.slots.map (fun t => if t.id == slotId then { t with status := SlotStatus.LOCKED, lockedUntil := some (now1 + 300) } else t)).map (fun t => if t.id == slotId then { t with status := SlotStatus.BOOKED, appointmentId := some (db.nextId + 1) } else t)) ((db.locks ++ [(SlotLock.mk db.nextId slotId pid (now1 + 300) otp (now1 + 300))]).filter (fun l2 => l2.id != db.nextId)) (db.appointments ++ [(Appointment.mk (db.nextId + 1) pid s.doctorId slotId AppointmentStatus.CONFIRMED ConsultationMode.ONLINE "" "" none none none none none)]) (db.nextId + 1 + 1)) := by rw [hconf]
  have hconf2 : (confirmSlot (DB.mk (db.slots.map (fun t => if t.id == slotId then { t with status := SlotStatus.LOCKED, lockedUntil := some (now1 + 300) } else t)) (db.locks ++ [(SlotLock.mk db.nextId slotId pid (now1 + 300) otp (now1 + 300))]) db.appointments (db.nextId + 1)) now2 slotId pid otp).2
      = ConfirmResult.ok (db.nextId + 1) := by rw [hconf]
  rw [hconf1, hconf2]
  have hfindA2 : ((db.slots.map (fun t => if t.id == slotId then { t with status := SlotStatus.LOCKED, lockedUntil := some (now1 + 300) } else t)).map (fun t => if t.id == slotId then { t with status := SlotStatus.BOOKED, appointmentId := some (db.nextId + 1) } else t)).find? (fun t => t.id == slotId) = some ({ s with status := SlotStatus.BOOKED, appointmentId := some (db.nextId + 1), lockedUntil := some (now1 + 300) } : TimeSlot) := by
    rw [find?_map_of_key TimeSlot.id (fun t => { t with status := SlotStatus.BOOKED, appointmentId := some (db.nextId + 1) }) (fun t => rfl) (db.slots.map (fun t => if t.id == slotId then { t with status := SlotStatus.LOCKED, lockedUntil := some (now1 + 300) } else t)) slotId slotId,
      hfindA1, Option.map_some']
    rw [if_pos (by simpa using hsid)]
  have hlocks2 : ((db.locks ++ [(SlotLock.mk db.nextId slotId pid (now1 + 300) otp (now1 + 300))]).filter (fun l2 => l2.id != db.nextId)).filter (fun l => l.slotId == slotId) = [] := by
    rw [List.filter_eq_nil_iff]
    intro x hx
    have hx1 := List.mem_filter.mp hx
    rcases List.mem_append.mp hx1.1 with hxl | hxr
    · simp [hnoL x hxl]
    · exfalso
      have hxx : x = (SlotLock.mk db.nextId slotId pid (now1 + 300) otp (now1 + 300)) := by simpa using hxr
      have := hx1.2
      rw [hxx] at this
      simp at this
  have hpreA : db.appointments.find? (fun a => a.id == db.nextId + 1) = none := by
    rw [List.find?_eq_none]
    intro x hx hpx
    exact hFresh x hx (by simpa using hpx)
  have hfindC2 : (db.appointments ++ [(Appointment.mk (db.nextId + 1) pid s.doctorId slotId AppointmentStatus.CONFIRMED ConsultationMode.ONLINE "" "" none none none none none)]).find? (fun a => a.id == db.nextId + 1) = some (Appointment.mk (db.nextId + 1) pid s.doctorId slotId AppointmentStatus.CONFIRMED ConsultationMode.ONLINE "" "" none none none none none) := by
    rw [find?_append_of_none hpreA]
    rw [List.find?_cons_of_pos _ (by simp)]
  have ha2 : findAppt (DB.mk ((db.slots.map (fun t => if t.id == slotId then { t with status := SlotStatus.LOCKED, lockedUntil := some (now1 + 300) } else t)).map (fun t => if t.id == slotId then { t with status := SlotStatus.BOOKED, appointmentId := some (db.nextId + 1) } else t)) ((db.locks ++ [(SlotLock.mk db.nextId slotId pid (now1 + 300) otp (now1 + 300))]).filter (fun l2 => l2.id != db.nextId)) (db.appointments ++ [(Appointment.mk (db.nextId + 1) pid s.doctorId slotId AppointmentStatus.CONFIRMED ConsultationMode.ONLINE "" "" none none none none none)]) (db.nextId + 1 + 1)) (db.nextId + 1) = some (Appointment.mk (db.nextId + 1) pid s.doctorId slotId AppointmentStatus.CONFIRMED ConsultationMode.ONLINE "" "" none none none none none) := by
    rw [findAppt_mk]
    exact hfindC2
  have hfs2 : findSlot (DB.mk ((db.slots.map (fun t => if t.id == slotId then { t with status := SlotStatus.LOCKED, lockedUntil := some (now1 + 300) } else t)).map (fun t => if t.id == slotId then { t with status := SlotStatus.BOOKED, appointmentId := some (db.nextId + 1) } else t)) ((db.locks ++ [(SlotLock.mk db.nextId slotId pid (now1 + 300) otp (now1 + 300))]).filter (fun l2 => l2.id != db.nextId)) (db.appointments ++ [(Appointment.mk (db.nextId + 1) pid s.doctorId slotId AppointmentStatus.CONFIRMED ConsultationMode.ONLINE "" "" none none none none none)]) (db.nextId + 1 + 1)) (Appointment.mk (db.nextId + 1) pid s.doctorId slotId AppointmentStatus.CONFIRMED ConsultationMode.ONLINE "" "" none none none none none).slotId = some ({ s with status := SlotStatus.BOOKED, appointmentId := some (db.nextId + 1), lockedUntil := some (now1 + 300) } : TimeSlot) := by
    rw [findSlot_mk]
    exact hfindA2
  have hcancRaw := @cancelAppointment_success _ now3 _ _ Role.PATIENT reason _ _ ha2 (Or.inr (Or.inl rfl)) hfs2 hC
  have hcanc : cancelAppointment (DB.mk ((db.slots.map (fun t => if t.id == slotId then { t with status := SlotStatus.LOCKED, lockedUntil := some (now1 + 300) } else t)).map (fun t => if t.id == slotId then { t with status := SlotStatus.BOOKED, appointmentId := some (db.nextId + 1) } else t)) ((db.locks ++ [(SlotLock.mk db.nextId slotId pid (now1 + 300) otp (now1 + 300))]).filter (fun l2 => l2.id != db.nextId)) (db.appointments ++ [(Appointment.mk (db.nextId + 1) pid s.doctorId slotId AppointmentStatus.CONFIRMED ConsultationMode.ONLINE "" "" none none none none none)]) (db.nextId + 1 + 1)) now3 (db.nextId + 1) pid Role.PATIENT reason
      = ((DB.mk (((db.slots.map (fun t => if t.id == slotId then { t with status := SlotStatus.LOCKED, lockedUntil := some (now1 + 300) } else t)).map (fun t => if t.id == slotId then { t with status := SlotStatus.BOOKED, appointmentId := some (db.nextId + 1) } else t)).map (fun t => if t.id == slotId then { t with status := SlotStatus.AVAILABLE, appointmentId := none } else t)) ((db.locks ++ [(SlotLock.mk db.nextId slotId pid (now1 + 300) otp (now1 + 300))]).filter (fun l2 => l2.id != db.nextId)) ((db.appointments ++ [(Appointment.mk (db.nextId + 1) pid s.doctorId slotId AppointmentStatus.CONFIRMED ConsultationMode.ONLINE "" "" none none none none none)]).map (fun a2 => if a2.id == db.nextId + 1 then { a2 with status := AppointmentStatus.CANCELLED, cancelledAt := some now3, cancelledBy := some pid, cancellationReason := some reason } else a2)) (db.nextId + 1 + 1)), .ok) := hcancRaw
  have hcanc1 : (cancelAppointment (DB.mk ((db.slots.map (fun t => if t.id == slotId then { t with status := SlotStatus.LOCKED, lockedUntil := some (now1 + 300) } else t)).map (fun t => if t.id == slotId then { t with status := SlotStatus.BOOKED, appointmentId := some (db.nextId + 1) } else t)) ((db.locks ++ [(SlotLock.mk db.nextId slotId pid (now1 + 300) otp (now1 + 300))]).filter (fun l2 => l2.id != db.nextId)) (db.appointments ++ [(Appointment.mk (db.nextId + 1) pid s.doctorId slotId AppointmentStatus.CONFIRMED ConsultationMode.ONLINE "" "" none none none none none)]) (db.nextId + 1 + 1)) now3 (db.nextId + 1) pid Role.PATIENT reason).1
      = (DB.mk (((db.slots.map (fun t => if t.id == slotId then { t with status := SlotStatus.LOCKED, lockedUntil := some (now1 + 300) } else t)).map (fun t => if t.id == slotId then { t with status := SlotStatus.BOOKED, appointmentId := some (db.nextId + 1) } else t)).map (fun t => if t.id == slotId then { t with status := SlotStatus.AVAILABLE, appointmentId := none } else t)) ((db.locks ++ [(SlotLock.mk db.nextId slotId pid (now1 + 300) otp (now1 + 300))]).filter (fun l2 => l2.id != db.nextId)) ((db.appointments ++ [(Appointment.mk (db.nextId + 1) pid s.doctorId slotId AppointmentStatus.CONFIRMED ConsultationMode.ONLINE "" "" none none none none none)]).map (fun a2 => if a2.id == db.nextId + 1 then { a2 with status := AppointmentStatus.CANCELLED, cancelledAt := some now3, cancelledBy := some pid, cancellationReason := some reason } else a2)) (db.nextId + 1 + 1)) := by rw [hcanc]
  have hcanc2 : (cancelAppointment (DB.mk ((db.slots.map (fun t => if t.id == slotId then { t with status := SlotStatus.LOCKED, lockedUntil := some (now1 + 300) } else t)).map (fun t => if t.id == slotId then { t with status := SlotStatus.BOOKED, appointmentId := some (db.nextId + 1) } else t)) ((db.locks ++ [(SlotLock.mk db.nextId slotId pid (now1 + 300) otp (now1 + 300))]).filter (fun l2 => l2.id != db.nextId)) (db.appointments ++ [(Appointment.mk (db.nextId + 1) pid s.doctorId slotId AppointmentStatus.CONFIRMED ConsultationMode.ONLINE "" "" none none none none none)]) (db.nextId + 1 + 1)) now3 (db.nextId + 1) pid Role.PATIENT reason).2
      = CancelResult.ok := by rw [hcanc]
  rw [hcanc1, hcanc2]
  refine ⟨rfl, ?_, ?_, ?_, rfl, ?_, ?_, ?_⟩
  · refine ⟨({ s with status := SlotStatus.BOOKED, appointmentId := some (db.nextId + 1), lockedUntil := some (now1 + 300) } : TimeSlot), ?_, rfl, rfl⟩
    rw [findSlot_mk]
    exact hfindA2
  · rw [apptsFor_mk, List.filter_append, hA0]
    simp
  · rw [locksFor_mk]
    exact hlocks2
  · refine ⟨({ s with status := SlotStatus.AVAILABLE, appointmentId := none, lockedUntil := some (now1 + 300) } : TimeSlot), ?_, rfl⟩
    rw [findSlot_mk]
    rw [find?_map_of_key TimeSlot.id (fun t => { t with status := SlotStatus.AVAILABLE, appointmentId := none }) (fun t => rfl) ((db.slots.map (fun t => if t.id == slotId then { t with status := SlotStatus.LOCKED, lockedUntil := some (now1 + 300) } else t)).map (fun t => if t.id == slotId then { t with status := SlotStatus.BOOKED, appointmentId := some (db.nextId + 1) } else t)) slotId slotId,
      hfindA2, Option.map_some']
    rw [if_pos (by simpa using hsid)]
  · refine ⟨(Appointment.mk (db.nextId + 1) pid s.doctorId slotId AppointmentStatus.CANCELLED ConsultationMode.ONLINE "" "" none none (some now3) (some pid) (some reason)), ?_, rfl, rfl⟩
    rw [findAppt_mk]
    rw [find?_map_of_key Appointment.id (fun a2 => { a2 with status := AppointmentStatus.CANCELLED, cancelledAt := some now3, cancelledBy := some pid, cancellationReason := some reason }) (fun a => rfl) (db.appointments ++ [(Appointment.mk (db.nextId + 1) pid s.doctorId slotId AppointmentStatus.CONFIRMED ConsultationMode.ONLINE "" "" none none none none none)])
      (db.nextId + 1) (db.nextId + 1), hfindC2, Option.map_some']
    rw [if_pos (by simp)]
  · rw [locksFor_mk]
    exact hlocks2


/-- Witness for c2_amended: the full round trip on the fixture slot. -/
theorem c2_amended_witness :
    (confirmSlot (lockSlot availDB 0 1 3 "111111" .ONLINE "" "").1 10 1 3 "111111").2 = .ok 11 ∧
    (∃ s2, findSlot (confirmSlot (lockSlot availDB 0 1 3 "111111" .ONLINE "" "").1 10 1 3 "111111").1 1 = some s2 ∧
      s2.status = .BOOKED ∧ s2.appointmentId = some 11) ∧
    (apptsFor (confirmSlot (lockSlot availDB 0 1 3 "111111" .ONLINE "" "").1 10 1 3 "111111").1 1).length = 1 ∧
    locksFor (confirmSlot (lockSlot availDB 0 1 3 "111111" .ONLINE "" "").1 10 1 3 "111111").1 1 = [] ∧
    (cancelAppointment (confirmSlot (lockSlot availDB 0 1 3 "111111" .ONLINE "" "").1 10 1 3 "111111").1 20 11 3 .PATIENT "w").2 = .ok ∧
    (∃ s3, findSlot (cancelAppointment (confirmSlot (lockSlot availDB 0 1 3 "111111" .ONLINE "" "").1 10 1 3 "111111").1 20 11 3 .PATIENT "w").1 1 = some s3 ∧ s3.status = .AVAILABLE) ∧
    (∃ a3, findAppt (cancelAppointment (confirmSlot (lockSlot availDB 0 1 3 "111111" .ONLINE "" "").1 10 1 3 "111111").1 20 11 3 .PATIENT "w").1 11 = some a3 ∧
      a3.status = .CANCELLED ∧ a3.slotId = 1) ∧
    locksFor (cancelAppointment (confirmSlot (lockSlot availDB 0 1 3 "111111" .ONLINE "" "").1 10 1 3 "111111").1 20 11 3 .PATIENT "w").1 1 = [] :=
  c2_amended availDB 0 10 20 1 3 "111111" "w" slotA (by decide) (by decide)
    (by decide) (by decide) (by decide) (by decide) (by decide) (by decide)

end Amrutam
